import Mathlib

/-!
Shallow embedding of `src/Current.ts` of vscode-apple-swift-format:
the settings accessor, the `swiftFormatPath` resolver with its
`fallbackGlobalSwiftFormatPath` helper, and `reportIssueForError`.

External collaborators (the host editor's configuration store, the
filesystem-existence check, the workspace-folder lookup, the
`absolutePath` normalizer from `AbsolutePath.ts` and the `url` tagged
template from `UrlLiteral.ts`, neither of which is part of the resolver
source) are modelled as parameters of an environment record, exactly as
the specification treats them: opaque capabilities supplied by the host.
-/

namespace SwiftFormat

/-- A JSON-like dynamically typed value, as stored in the host editor's
configuration store.  The `apple-swift-format.path` key may hold any
shape at runtime, so the embedding keeps it untyped. -/
inductive JSValue where
  | str (s : String)
  | num (n : Int)
  | bool (b : Bool)
  | null
  | arr (l : List JSValue)

/-- The persistent configuration store, restricted to the keys the
resolver reads.  `none` models an unset key (the host's `get(key, dflt)`
then substitutes the default). `configSearchPaths` is kept at its
declared schema type `string[]`; `path` is untyped because the source
inspects its runtime shape. -/
structure ConfigStore where
  path : Option JSValue
  onlyEnableOnSwiftPMProjects : Option Bool
  configSearchPaths : Option (List String)

/-- The host environment of one resolution call: the workspace folder
containing the document (`vscode.workspace.getWorkspaceFolder`), the
filesystem existence check (`existsSync`), and the external
`absolutePath` normalizer.  `absOnNonString` records the
implementation-defined outcome of the untyped call `absolutePath(v)`
when `v` is not a string; the collaborator contract
(`toAbsolutePath(path: string) -> string`) only covers strings. -/
structure Env where
  workspaceFolder : Option String
  fs : String → Bool
  absolutePath : String → String
  absOnNonString : JSValue → JSValue

/-- The untyped application `absolutePath(v)` as it happens in
`absolutePath(path[0])`: on a string it is the external normalizer,
on any other shape the behavior is a parameter of the environment. -/
def absJS (e : Env) : JSValue → JSValue
  | .str s => .str (e.absolutePath s)
  | v => e.absOnNonString v

/-- Models Node `path.join(root, rel)` for a workspace root and a clean
relative candidate segment, the only way the source uses it. -/
def join (a b : String) : String := a ++ "/" ++ b

/-- `const defaultPath = ["/usr/bin/env", "swift-format"]`. -/
def defaultPath : List JSValue := [.str "/usr/bin/env", .str "swift-format"]

/-- `fallbackGlobalSwiftFormatPath` from `Current.ts`:
read `apple-swift-format.path` (defaulting to `defaultPath`); a string
becomes `[absolutePath(path)]`; a non-empty array becomes
`[absolutePath(path[0]), ...path.slice(1)]`; anything else (including
the empty array) yields `defaultPath`. -/
def fallbackGlobalSwiftFormatPath (e : Env) (store : ConfigStore) : List JSValue :=
  match store.path.getD (.arr defaultPath) with
  | .str s => [.str (e.absolutePath s)]
  | .arr (p0 :: rest) => absJS e p0 :: rest
  | _ => defaultPath

/-- `const possibleLocalPaths = [".build/release/swift-format", ".build/debug/swift-format"]`. -/
def possibleLocalPaths : List String :=
  [".build/release/swift-format", ".build/debug/swift-format"]

/-- The `for (const path of possibleLocalPaths)` loop of
`swiftFormatPath`: for each candidate, look up the workspace folder
(`continue` when there is none), join it with the candidate, and return
the first joined path that exists. -/
def findLocalBuild (e : Env) : List String → Option String
  | [] => none
  | p :: rest =>
    match e.workspaceFolder with
    | none => findLocalBuild e rest
    | some ws =>
      if e.fs (join ws p) then some (join ws p) else findLocalBuild e rest

/-- `swiftFormatPath` from `Current.ts`: prefer a local SwiftPM build
(release then debug); otherwise return `null` ("no-command") when
`onlyEnableOnSwiftPMProjects` is set, else fall back to the global
resolution. -/
def swiftFormatPath (e : Env) (store : ConfigStore) : Option (List JSValue) :=
  match findLocalBuild e possibleLocalPaths with
  | some fullPath => some [.str (e.absolutePath fullPath)]
  | none =>
    if store.onlyEnableOnSwiftPMProjects.getD false then
      none
    else
      some (fallbackGlobalSwiftFormatPath e store)

/-- `resetSwiftFormatPath`: `update("apple-swift-format.path", undefined)`,
i.e. clear the `path` key of the store. -/
def resetSwiftFormatPath (store : ConfigStore) : ConfigStore :=
  { store with path := none }

/-- `formatConfigSearchPaths`:
`get("apple-swift-format.configSearchPaths", [".swift-format"]).map(absolutePath)`. -/
def formatConfigSearchPaths (e : Env) (store : ConfigStore) : List String :=
  (store.configSearchPaths.getD [".swift-format"]).map e.absolutePath

/-- The argument of `reportIssueForError`, typed
`Partial<Error & { code: number }>`: every field may be absent. -/
structure JSError where
  code : Option Int
  message : Option String
  stack : Option String

/-- The single editor effect `reportIssueForError` performs: it opens a
URL through the facade's own `openURL` operation. -/
inductive EditorAction where
  | openURL (url : String)
  deriving DecidableEq

/-- The editor facade's external collaborators used by
`reportIssueForError`.  `urlNewIssue` — modelled from the spec: the
`url` tagged template of `UrlLiteral.ts` (not under `src/`), which
builds the pre-filled new-issue URL
`https://github.com/vknabel/vscode-apple-swift-format/issues/new` from
the interpolated title and body; the spec places its escaping out of
scope, so it stays an opaque function of (title, body).  `stringify` is
the host primitive `JSON.stringify` applied to the error. -/
structure Editor where
  urlNewIssue : String → String → String
  stringify : JSError → String

/-- `pat.isPrefixOf s` written out on character lists (used to locate a
regex-literal match). -/
def startsWithPat : List Char → List Char → Bool
  | [], _ => true
  | _ :: _, [] => false
  | p :: ps, c :: cs => p == c && startsWithPat ps cs

/-- Replace the first (leftmost) occurrence of `pat`, on character
lists.  This is JS `String.prototype.replace` with a non-global regex
of a literal pattern; the empty-input/empty-pattern corner is
irrelevant here since the only pattern used is the two-character
literal backslash-n. -/
def replaceFirstChars (pat rep : List Char) : List Char → List Char
  | [] => []
  | c :: cs =>
    if startsWithPat pat (c :: cs) then rep ++ (c :: cs).drop pat.length
    else c :: replaceFirstChars pat rep cs

/-- `s.replace(/pat/, rep)` for a literal pattern without the `g` flag:
only the first occurrence is replaced. -/
def replaceFirst (pat rep s : String) : String :=
  ⟨replaceFirstChars pat.data rep.data s.data⟩

/-- JS `error.code || ""` interpolated into a template: an absent code
and the (falsy) number 0 both render as the empty string, any other
number renders in decimal. -/
def jsNumOrEmpty : Option Int → String
  | some n => if n = 0 then "" else toString n
  | none => ""

/-- JS `error.message || ""`: absent or empty both render empty. -/
def jsStrOrEmpty : Option String → String
  | some s => if s = "" then "" else s
  | none => ""

/-- JS `error.stack || d`: the stack if present and non-empty (truthy),
otherwise `d`. -/
def jsStrOr (o : Option String) (d : String) : String :=
  match o with
  | some s => if s = "" then d else s
  | none => d

/-- The title built by `reportIssueForError`:
`` `Report ${error.code || ""} ${error.message || ""}`.replace(/\\n/, " ") ``.
The regex `/\\n/` matches the literal two-character sequence
backslash-`n` and carries no `g` flag. -/
def reportTitle (error : JSError) : String :=
  replaceFirst "\\n" " "
    ("Report " ++ jsNumOrEmpty error.code ++ " " ++ jsStrOrEmpty error.message)

/-- The body built by `reportIssueForError`:
`"`" + (error.stack || JSON.stringify(error)) + "`"`. -/
def reportBody (E : Editor) (error : JSError) : String :=
  "`" ++ jsStrOr error.stack (E.stringify error) ++ "`"

/-- `reportIssueForError` from `Current.ts`: build the title and body
and open the pre-filled new-issue URL through the facade's own
`openURL`. -/
def reportIssueForError (E : Editor) (error : JSError) : EditorAction :=
  .openURL (E.urlNewIssue (reportTitle error) (reportBody E error))

/-! Concrete environments and stores used to instantiate the theorems
below on explicit inputs. -/

/-- A workspace at `/ws` in which both local builds exist. -/
def envBoth : Env :=
  { workspaceFolder := some "/ws"
    fs := fun p =>
      p == "/ws/.build/release/swift-format" || p == "/ws/.build/debug/swift-format"
    absolutePath := fun s => s
    absOnNonString := fun v => v }

/-- A workspace at `/ws` in which only the debug build exists. -/
def envDebugOnly : Env :=
  { workspaceFolder := some "/ws"
    fs := fun p => p == "/ws/.build/debug/swift-format"
    absolutePath := fun s => s
    absOnNonString := fun v => v }

/-- No workspace folder, empty filesystem. -/
def envNone : Env :=
  { workspaceFolder := none
    fs := fun _ => false
    absolutePath := fun s => s
    absOnNonString := fun v => v }

/-- A store with every key unset. -/
def store0 : ConfigStore :=
  { path := none, onlyEnableOnSwiftPMProjects := none, configSearchPaths := none }

/-- A store with `onlyEnableOnSwiftPMProjects = true` and a `path`
setting present (to exercise "regardless of the path setting"). -/
def storeOnlyPM : ConfigStore :=
  { path := some (.str "/opt/swift-format")
    onlyEnableOnSwiftPMProjects := some true
    configSearchPaths := none }

/-- A concrete editor facade double. -/
def editor0 : Editor :=
  { urlNewIssue := fun t b => "issues/new?title=" ++ t ++ "&body=" ++ b
    stringify := fun _ => "serialized-error" }

/-! Theorems settling the claims. -/

/-- Claim C1: with a workspace folder at `root`, if
`.build/release/swift-format` exists under it, `swiftFormatPath`
returns that release candidate as a single-element command (so when
both candidates exist the release one wins); if the release candidate
does not exist but `.build/debug/swift-format` does, the debug
candidate is returned as a single-element command. -/
theorem swiftFormatPath_prefers_release (e : Env) (s : ConfigStore) (root : String)
    (hws : e.workspaceFolder = some root) :
    (e.fs (join root ".build/release/swift-format") = true →
      swiftFormatPath e s =
        some [.str (e.absolutePath (join root ".build/release/swift-format"))]) ∧
    (e.fs (join root ".build/release/swift-format") = false →
      e.fs (join root ".build/debug/swift-format") = true →
      swiftFormatPath e s =
        some [.str (e.absolutePath (join root ".build/debug/swift-format"))]) := by
  constructor
  · intro h1
    simp [swiftFormatPath, findLocalBuild, possibleLocalPaths, hws, h1]
  · intro h1 h2
    simp [swiftFormatPath, findLocalBuild, possibleLocalPaths, hws, h1, h2]

/-- Witness for C1 at the concrete workspaces `/ws`: with both builds
present the release one is returned; with only the debug build present
the debug one is returned. -/
theorem swiftFormatPath_prefers_release_witness :
    swiftFormatPath envBoth store0 =
      some [.str (envBoth.absolutePath (join "/ws" ".build/release/swift-format"))] ∧
    swiftFormatPath envDebugOnly store0 =
      some [.str (envDebugOnly.absolutePath (join "/ws" ".build/debug/swift-format"))] :=
  ⟨(swiftFormatPath_prefers_release envBoth store0 "/ws" rfl).1 (by decide),
   (swiftFormatPath_prefers_release envDebugOnly store0 "/ws" rfl).2 (by decide) (by decide)⟩

/-- Claim C2: when no local build is found — either because there is no
workspace folder, or because neither candidate exists under the
workspace root — and `onlyEnableOnSwiftPMProjects` reads `true`,
`swiftFormatPath` returns `none` ("no-command"), whatever the `path`
setting holds. -/
theorem swiftFormatPath_noCommand (e : Env) (s : ConfigStore)
    (hno : e.workspaceFolder = none ∨
      ∃ root, e.workspaceFolder = some root ∧
        e.fs (join root ".build/release/swift-format") = false ∧
        e.fs (join root ".build/debug/swift-format") = false)
    (hon : s.onlyEnableOnSwiftPMProjects.getD false = true) :
    swiftFormatPath e s = none := by
  rcases hno with h | ⟨root, hws, h1, h2⟩
  · simp [swiftFormatPath, findLocalBuild, possibleLocalPaths, h, hon]
  · simp [swiftFormatPath, findLocalBuild, possibleLocalPaths, hws, h1, h2, hon]

/-- Witness for C2: no workspace folder, `onlyEnableOnSwiftPMProjects`
set, and a `path` setting present — the result is still `none`. -/
theorem swiftFormatPath_noCommand_witness :
    swiftFormatPath envNone storeOnlyPM = none :=
  swiftFormatPath_noCommand envNone storeOnlyPM (Or.inl rfl) rfl

/-- Claim C3: with no containing workspace folder the local-build
search finds nothing, so `swiftFormatPath` returns the global-fallback
resolution when `onlyEnableOnSwiftPMProjects` reads `false`, and `none`
("no-command") when it reads `true`. -/
theorem swiftFormatPath_no_workspace (e : Env) (s : ConfigStore)
    (hws : e.workspaceFolder = none) :
    (s.onlyEnableOnSwiftPMProjects.getD false = false →
      swiftFormatPath e s = some (fallbackGlobalSwiftFormatPath e s)) ∧
    (s.onlyEnableOnSwiftPMProjects.getD false = true →
      swiftFormatPath e s = none) := by
  constructor
  · intro h
    simp [swiftFormatPath, findLocalBuild, possibleLocalPaths, hws, h]
  · intro h
    simp [swiftFormatPath, findLocalBuild, possibleLocalPaths, hws, h]

/-- Witness for C3 at concrete inputs: with no workspace folder, an
unset store yields the fallback resolution and `storeOnlyPM` yields
`none`. -/
theorem swiftFormatPath_no_workspace_witness :
    swiftFormatPath envNone store0 = some (fallbackGlobalSwiftFormatPath envNone store0) ∧
    swiftFormatPath envNone storeOnlyPM = none :=
  ⟨(swiftFormatPath_no_workspace envNone store0 rfl).1 rfl,
   (swiftFormatPath_no_workspace envNone storeOnlyPM rfl).2 rfl⟩

/-- Claim C4: the global fallback maps a stored single string to the
one-element command holding its normalization, and a stored non-empty
sequence of strings to its first element normalized followed by the
remaining elements unchanged (never normalized). -/
theorem fallback_string_and_list (e : Env) (s1 s2 : ConfigStore) (p p0 : String)
    (rest : List String)
    (h1 : s1.path = some (.str p))
    (h2 : s2.path = some (.arr (.str p0 :: rest.map JSValue.str))) :
    fallbackGlobalSwiftFormatPath e s1 = [.str (e.absolutePath p)] ∧
    fallbackGlobalSwiftFormatPath e s2 =
      .str (e.absolutePath p0) :: rest.map JSValue.str := by
  constructor
  · simp [fallbackGlobalSwiftFormatPath, h1]
  · simp [fallbackGlobalSwiftFormatPath, absJS, h2]

/-- Witness for C4: a stored string and a stored three-element string
sequence, resolved in the identity-normalizer environment. -/
theorem fallback_string_and_list_witness :
    fallbackGlobalSwiftFormatPath envNone
        { path := some (.str "/opt/swift-format"),
          onlyEnableOnSwiftPMProjects := none, configSearchPaths := none } =
      [.str (envNone.absolutePath "/opt/swift-format")] ∧
    fallbackGlobalSwiftFormatPath envNone
        { path := some (.arr (.str "swift-format" ::
            ["--configuration", "strict"].map JSValue.str)),
          onlyEnableOnSwiftPMProjects := none, configSearchPaths := none } =
      .str (envNone.absolutePath "swift-format") ::
        ["--configuration", "strict"].map JSValue.str :=
  fallback_string_and_list envNone
    { path := some (.str "/opt/swift-format"),
      onlyEnableOnSwiftPMProjects := none, configSearchPaths := none }
    { path := some (.arr (.str "swift-format" ::
        ["--configuration", "strict"].map JSValue.str)),
      onlyEnableOnSwiftPMProjects := none, configSearchPaths := none }
    "/opt/swift-format" "swift-format" ["--configuration", "strict"] rfl rfl

/-- Counterexample to claim C5 as stated: the stored value
`[0]` is a sequence containing a non-string element, yet the global
fallback does not return the hard-coded default — the non-empty-array
branch fires and produces a one-element result. -/
theorem fallback_malformed_counterexample :
    fallbackGlobalSwiftFormatPath envNone
        { path := some (.arr [.num 0]),
          onlyEnableOnSwiftPMProjects := none, configSearchPaths := none } ≠
      defaultPath := by
  intro h
  simpa [fallbackGlobalSwiftFormatPath, absJS, envNone, defaultPath]
    using congrArg List.length h

/-- Claim C5 as amended: the global fallback returns the hard-coded
default `["/usr/bin/env", "swift-format"]`, unmodified and without
normalization, exactly for an empty stored sequence and for stored
values that are neither a string nor a sequence; a stored non-empty
sequence — even one whose elements are not strings — instead takes the
sequence branch, yielding its first element through the (untyped)
normalizer followed by the remaining elements unchanged. -/
theorem fallback_default_shapes (e : Env) (s : ConfigStore) :
    (s.path = some (.arr []) → fallbackGlobalSwiftFormatPath e s = defaultPath) ∧
    (∀ n, s.path = some (.num n) → fallbackGlobalSwiftFormatPath e s = defaultPath) ∧
    (∀ b, s.path = some (.bool b) → fallbackGlobalSwiftFormatPath e s = defaultPath) ∧
    (s.path = some .null → fallbackGlobalSwiftFormatPath e s = defaultPath) ∧
    (∀ v0 rest, s.path = some (.arr (v0 :: rest)) →
      fallbackGlobalSwiftFormatPath e s = absJS e v0 :: rest) := by
  refine ⟨fun h => ?_, fun n h => ?_, fun b h => ?_, fun h => ?_, fun v0 rest h => ?_⟩ <;>
    simp [fallbackGlobalSwiftFormatPath, h]

/-- Witness for the amended C5: an empty stored sequence yields the
default; the stored sequence `[0]` yields the sequence-branch result. -/
theorem fallback_default_shapes_witness :
    fallbackGlobalSwiftFormatPath envNone
        { path := some (.arr []),
          onlyEnableOnSwiftPMProjects := none, configSearchPaths := none } =
      defaultPath ∧
    fallbackGlobalSwiftFormatPath envNone
        { path := some (.arr [.num 0]),
          onlyEnableOnSwiftPMProjects := none, configSearchPaths := none } =
      absJS envNone (.num 0) :: [] :=
  ⟨(fallback_default_shapes envNone
      { path := some (.arr []),
        onlyEnableOnSwiftPMProjects := none, configSearchPaths := none }).1 rfl,
   (fallback_default_shapes envNone
      { path := some (.arr [.num 0]),
        onlyEnableOnSwiftPMProjects := none,
        configSearchPaths := none }).2.2.2.2 (.num 0) [] rfl⟩

/-- The global fallback always yields a non-empty command sequence. -/
theorem fallback_len (e : Env) (s : ConfigStore) :
    1 ≤ (fallbackGlobalSwiftFormatPath e s).length := by
  unfold fallbackGlobalSwiftFormatPath
  generalize s.path.getD (.arr defaultPath) = v
  cases v with
  | str p => simp
  | num n => simp [defaultPath]
  | bool b => simp [defaultPath]
  | null => simp [defaultPath]
  | arr l => cases l <;> simp [defaultPath]

/-- Claim C6: whenever `swiftFormatPath` returns a command (not
"no-command"), the returned sequence has length at least 1, for every
environment and store. -/
theorem swiftFormatPath_result_nonempty (e : Env) (s : ConfigStore) (r : List JSValue)
    (h : swiftFormatPath e s = some r) : 1 ≤ r.length := by
  unfold swiftFormatPath at h
  split at h
  · cases h
    simp
  · split at h
    · cases h
    · cases h
      exact fallback_len e s

/-- Witness for C6: the command resolved in `envBoth` from the unset
store is the singleton release command, of length ≥ 1. -/
theorem swiftFormatPath_result_nonempty_witness :
    1 ≤ ([JSValue.str "/ws/.build/release/swift-format"] : List JSValue).length :=
  swiftFormatPath_result_nonempty envBoth store0
    [JSValue.str "/ws/.build/release/swift-format"] rfl

/-- Claim C7: clearing the `path` key with `resetSwiftFormatPath` makes
a subsequent global-fallback resolution agree with the resolution on
any store whose `path` key was never set. -/
theorem reset_then_fallback (e : Env) (s sFresh : ConfigStore)
    (h : sFresh.path = none) :
    fallbackGlobalSwiftFormatPath e (resetSwiftFormatPath s) =
      fallbackGlobalSwiftFormatPath e sFresh := by
  simp [fallbackGlobalSwiftFormatPath, resetSwiftFormatPath, h]

/-- Witness for C7: resetting a store that held a `path` value gives
the same fallback resolution as the never-set store. -/
theorem reset_then_fallback_witness :
    fallbackGlobalSwiftFormatPath envNone (resetSwiftFormatPath storeOnlyPM) =
      fallbackGlobalSwiftFormatPath envNone store0 :=
  reset_then_fallback envNone storeOnlyPM store0 rfl

/-- Claim C8: `formatConfigSearchPaths` returns the stored
`configSearchPaths` sequence with every element passed through the
normalizer, in the stored order; with the key unset it returns the
single-element sequence holding the normalization of `.swift-format`. -/
theorem formatConfigSearchPaths_map (e : Env) (s1 s2 : ConfigStore) (l : List String)
    (h1 : s1.configSearchPaths = some l)
    (h2 : s2.configSearchPaths = none) :
    formatConfigSearchPaths e s1 = l.map e.absolutePath ∧
    formatConfigSearchPaths e s2 = [e.absolutePath ".swift-format"] := by
  constructor
  · simp [formatConfigSearchPaths, h1]
  · simp [formatConfigSearchPaths, h2]

/-- Witness for C8: a stored two-element sequence is mapped in order,
and the unset store yields the normalized `.swift-format`. -/
theorem formatConfigSearchPaths_map_witness :
    formatConfigSearchPaths envNone
        { path := none, onlyEnableOnSwiftPMProjects := none,
          configSearchPaths := some [".swift-format", "cfg/.swift-format"] } =
      [".swift-format", "cfg/.swift-format"].map envNone.absolutePath ∧
    formatConfigSearchPaths envNone store0 = [envNone.absolutePath ".swift-format"] :=
  formatConfigSearchPaths_map envNone
    { path := none, onlyEnableOnSwiftPMProjects := none,
      configSearchPaths := some [".swift-format", "cfg/.swift-format"] }
    store0 [".swift-format", "cfg/.swift-format"] rfl rfl

/-- Counterexample to claim C9 as stated: the regex `/\\n/` carries no
`g` flag, so only the first literal backslash-`n` sequence of the title
is collapsed to a space.  For the error with message `x\ny\nz` (literal
backslashes) and no code, the issue is opened with the title
`Report  x y\nz`, which still contains an escaped-newline sequence and
differs from the fully collapsed `Report  x y z` the claim requires. -/
theorem reportIssue_counterexample :
    reportIssueForError editor0 { code := none, message := some "x\\ny\\nz", stack := none } =
      .openURL (editor0.urlNewIssue "Report  x y\\nz" "`serialized-error`") ∧
    ("Report  x y\\nz" : String) ≠ "Report  x y z" :=
  ⟨rfl, by decide⟩

/-- Claim C9 as amended: `reportIssueForError` builds a title from the
error's numeric code and message in which the FIRST literal
escaped-newline sequence is collapsed to a space (subsequent ones are
kept), and a body containing the error's stack trace or, when the
stack is absent, the serialized form of the error, and opens the
pre-filled new-issue URL through the facade's own `openURL` operation. -/
theorem reportIssueForError_shape (E : Editor) (c : Int) (m st : String)
    (err2 : JSError)
    (hc : c ≠ 0) (hm : m ≠ "") (hst : st ≠ "") (h2 : err2.stack = none) :
    reportIssueForError E { code := some c, message := some m, stack := some st } =
      .openURL (E.urlNewIssue
        (replaceFirst "\\n" " " ("Report " ++ toString c ++ " " ++ m))
        ("`" ++ st ++ "`")) ∧
    reportIssueForError E err2 =
      .openURL (E.urlNewIssue (reportTitle err2)
        ("`" ++ E.stringify err2 ++ "`")) := by
  constructor
  · simp [reportIssueForError, reportTitle, reportBody,
      jsNumOrEmpty, jsStrOrEmpty, jsStrOr, hc, hm, hst]
  · simp [reportIssueForError, reportBody, jsStrOr, h2]

/-- Witness for the amended C9 at a concrete error with code 7, a
message holding one escaped newline, and a present stack, plus a
stack-less error. -/
theorem reportIssueForError_shape_witness :
    reportIssueForError editor0
        { code := some 7, message := some "a\\nb", stack := some "trace" } =
      .openURL (editor0.urlNewIssue
        (replaceFirst "\\n" " " ("Report " ++ toString (7 : Int) ++ " " ++ "a\\nb"))
        ("`" ++ "trace" ++ "`")) ∧
    reportIssueForError editor0 { code := some 7, message := some "a\\nb", stack := none } =
      .openURL (editor0.urlNewIssue
        (reportTitle { code := some 7, message := some "a\\nb", stack := none })
        ("`" ++ editor0.stringify { code := some 7, message := some "a\\nb", stack := none } ++ "`")) :=
  reportIssueForError_shape editor0 7 "a\\nb" "trace"
    { code := some 7, message := some "a\\nb", stack := none }
    (by decide) (by decide) (by decide) rfl

/-- Claim C10: a code field holding the falsy number 0 renders exactly
like an absent code field, and an empty message renders exactly like an
absent message — `reportIssueForError` builds the same title in each
pair of cases, so the numeric code 0 is silently dropped. -/
theorem reportTitle_falsy_fields (c : Int) (m : Option String) (st st2 : Option String) :
    reportTitle { code := some 0, message := m, stack := st } =
      reportTitle { code := none, message := m, stack := st2 } ∧
    reportTitle { code := some c, message := some "", stack := st } =
      reportTitle { code := some c, message := none, stack := st2 } := by
  constructor <;> simp [reportTitle, jsNumOrEmpty, jsStrOrEmpty]

end SwiftFormat
